import Mathlib

/-!
# Auth service: field cipher, user record, authenticator, controller, error handler

A shallow embedding of the JavaScript sources

* `utils/Cryptography.js`            (class `Cryptography`)
* `src/models/auth.js`               (the `Auth` schema, its hooks and statics)
* `src/controllers/account-controller.js` (`login`, `register`)
* `src/server.js`                    (the error-handling middleware)

Third-party libraries (node `crypto`, `bcrypt`, `jsonwebtoken`, `validator`)
are not part of the repository; they enter the model as fields of the
structures `NodeCrypto` and `Env`. The document store is modelled by a list of
stored objects with equality filters and a unique index on `email`;
`authenticate` takes its query function as an argument.
-/

namespace AuthService

/-! ## JavaScript values and plain objects -/

/-- The JavaScript values that occur in request bodies and stored documents. -/
inductive JsVal where
  | undefined
  | str (s : String)
  | bool (b : Bool)
  | num (n : Nat)
  deriving DecidableEq, Repr

/-- A plain object: its own properties in insertion order. -/
abbrev Obj := List (String × JsVal)

/-- Property read `o[k]`; a missing property reads as `undefined`. -/
def Obj.get (k : String) : Obj → JsVal
  | [] => .undefined
  | (k', v) :: rest => if k' = k then v else Obj.get k rest

/-- Whether `k` is an own property of the object. -/
def Obj.has (k : String) : Obj → Bool
  | [] => false
  | (k', _) :: rest => if k' = k then true else Obj.has k rest

/-- Property write `o[k] = v`: overwrite in place, or append a new property. -/
def Obj.set (k : String) (v : JsVal) : Obj → Obj
  | [] => [(k, v)]
  | (k', v') :: rest => if k' = k then (k, v) :: rest else (k', v') :: Obj.set k v rest

/-- The statement `delete o[k]`. -/
def Obj.delete (k : String) : Obj → Obj
  | [] => []
  | (k', v') :: rest => if k' = k then Obj.delete k rest else (k', v') :: Obj.delete k rest

/-- An error object: the properties the service reads (`name`, `message`,
`status`, `code`, `stack`). Absent numeric properties are `none`. -/
structure JsError where
  name : String
  message : String
  status : Option Nat
  code : Option Nat
  stack : String
  deriving DecidableEq, Repr

/-- The result of running a function body whose `try` block may log to the
console: the completion (a returned value or a thrown error that reaches the
caller) and the errors passed to `console.log`. -/
structure Ran (α : Type) where
  result : Except JsError α
  console : List JsError

/-! ## `utils/Cryptography.js` -/

/-- The node `crypto` primitives used by `Cryptography`, over a cipher-object
state `σ`. Each may throw. -/
structure NodeCrypto (σ : Type) where
  createCipheriv : String → String → String → Except JsError σ
  cipherUpdate : σ → JsVal → Except JsError (σ × String)
  cipherFinal : σ → Except JsError String
  createDecipheriv : String → String → String → Except JsError σ
  decipherUpdate : σ → JsVal → Except JsError (σ × String)
  decipherFinal : σ → Except JsError String

/-- The private fields `#algorithm`, `#securityKey`, `#initVector` set by the
constructor. -/
structure Cryptography where
  algorithm : String
  securityKey : String
  initVector : String

/-- The body of the `try` block of `encrypt`:
`createCipheriv`, then `update(message, 'utf-8', 'hex')`, then `+= final('hex')`. -/
def Cryptography.encryptBody {σ : Type} (lib : NodeCrypto σ) (c : Cryptography)
    (message : JsVal) : Except JsError String :=
  match lib.createCipheriv c.algorithm c.securityKey c.initVector with
  | .error e => .error e
  | .ok cipher =>
    match lib.cipherUpdate cipher message with
    | .error e => .error e
    | .ok (cipher', encryptedData) =>
      match lib.cipherFinal cipher' with
      | .error e => .error e
      | .ok last => .ok (encryptedData ++ last)

/-- Method `encrypt(message)`: `try { ...; return encryptedData } catch (error) { console.log(error) }`.
The `catch` block has no `return` and no `throw`, so the call completes
normally with `undefined`. -/
def Cryptography.encrypt {σ : Type} (lib : NodeCrypto σ) (c : Cryptography)
    (message : JsVal) : Ran JsVal :=
  match c.encryptBody lib message with
  | .ok encryptedData => ⟨.ok (.str encryptedData), []⟩
  | .error error => ⟨.ok .undefined, [error]⟩

/-- The body of the `try` block of `decrypt`:
`createDecipheriv`, then `update(encryptedMessage, 'hex', 'utf-8')`, then `+= final('utf8')`. -/
def Cryptography.decryptBody {σ : Type} (lib : NodeCrypto σ) (c : Cryptography)
    (encryptedMessage : JsVal) : Except JsError String :=
  match lib.createDecipheriv c.algorithm c.securityKey c.initVector with
  | .error e => .error e
  | .ok decipher =>
    match lib.decipherUpdate decipher encryptedMessage with
    | .error e => .error e
    | .ok (decipher', decryptedData) =>
      match lib.decipherFinal decipher' with
      | .error e => .error e
      | .ok last => .ok (decryptedData ++ last)

/-- Method `decrypt(encryptedMessage)`, with the same `try`/`catch` shape as `encrypt`. -/
def Cryptography.decrypt {σ : Type} (lib : NodeCrypto σ) (c : Cryptography)
    (encryptedMessage : JsVal) : Ran JsVal :=
  match c.decryptBody lib encryptedMessage with
  | .ok decryptedData => ⟨.ok (.str decryptedData), []⟩
  | .error error => ⟨.ok .undefined, [error]⟩

/-- The value a caller of `encrypt` receives, `undefined` included. -/
def Cryptography.encryptValue {σ : Type} (lib : NodeCrypto σ) (c : Cryptography)
    (message : JsVal) : JsVal :=
  match (c.encrypt lib message).result with
  | .ok v => v
  | .error _ => .undefined

/-- The value a caller of `decrypt` receives. -/
def Cryptography.decryptValue {σ : Type} (lib : NodeCrypto σ) (c : Cryptography)
    (encryptedMessage : JsVal) : JsVal :=
  match (c.decrypt lib encryptedMessage).result with
  | .ok v => v
  | .error _ => .undefined

/-- The round-trip property of the primitives under a configuration: whenever
a cipher object and a decipher object are created, and the cipher turns the
string `p` into `s` on `update` and `last` on `final`, the decipher given
`s ++ last` yields on `update` and `final` two pieces that concatenate to `p`. -/
def PrimitivesInverse {σ : Type} (lib : NodeCrypto σ) (c : Cryptography) : Prop :=
  ∀ (cipher decipher : σ),
    lib.createCipheriv c.algorithm c.securityKey c.initVector = .ok cipher →
    lib.createDecipheriv c.algorithm c.securityKey c.initVector = .ok decipher →
    ∀ (p : String) (cipher' : σ) (s last : String),
      lib.cipherUpdate cipher (.str p) = .ok (cipher', s) →
      lib.cipherFinal cipher' = .ok last →
      ∃ (decipher' : σ) (t tl : String),
        lib.decipherUpdate decipher (.str (s ++ last)) = .ok (decipher', t)
        ∧ lib.decipherFinal decipher' = .ok tl
        ∧ t ++ tl = p

/-! ## A small concrete instance of the cipher primitives

A byte-wise shift cipher with hex output, used to evaluate the definitions on
concrete inputs. It rejects every algorithm name but `"shift-hex"`, a message
that is not a string, and a character code above 254. The cipher emits the
shifted bytes on `update` and the terminator `00` on `final`; the decipher
keeps the decoded text in its state on `update` and emits it on `final`. -/

/-- Hex digit of a number below 16. -/
def hexDigit (n : Nat) : Char :=
  match n with
  | 0 => '0' | 1 => '1' | 2 => '2' | 3 => '3' | 4 => '4' | 5 => '5' | 6 => '6' | 7 => '7'
  | 8 => '8' | 9 => '9' | 10 => 'a' | 11 => 'b' | 12 => 'c' | 13 => 'd' | 14 => 'e' | _ => 'f'

/-- Value of a hex digit. -/
def hexValue (c : Char) : Option Nat :=
  if c = '0' then some 0 else if c = '1' then some 1 else if c = '2' then some 2
  else if c = '3' then some 3 else if c = '4' then some 4 else if c = '5' then some 5
  else if c = '6' then some 6 else if c = '7' then some 7 else if c = '8' then some 8
  else if c = '9' then some 9 else if c = 'a' then some 10 else if c = 'b' then some 11
  else if c = 'c' then some 12 else if c = 'd' then some 13 else if c = 'e' then some 14
  else if c = 'f' then some 15 else none

/-- Two hex digits per character: the character code plus one. -/
def toyEncode : List Char → List Char
  | [] => []
  | c :: cs =>
    let b := (c.toNat + 1) % 256
    hexDigit (b / 16) :: hexDigit (b % 16) :: toyEncode cs

/-- Decoding of the output of `toyEncode` followed by the terminator `00`. -/
def toyDecode : List Char → Option (List Char)
  | [] => none
  | [_] => none
  | h :: l :: cs =>
    match hexValue h, hexValue l with
    | some a, some b =>
      if 16 * a + b = 0 then (if cs = [] then some [] else none)
      else
        match toyDecode cs with
        | some rest => some (Char.ofNat ((16 * a + b + 255) % 256) :: rest)
        | none => none
    | _, _ => none

/-- The error thrown by the concrete primitives. -/
def toyError (msg : String) : JsError :=
  ⟨"TypeError", msg, none, none, ""⟩

/-- The concrete primitives; the state of a cipher object is the text it holds back. -/
def toyCrypto : NodeCrypto String where
  createCipheriv alg _ _ :=
    if alg = "shift-hex" then .ok "" else .error (toyError "Invalid algorithm")
  cipherUpdate st m :=
    match m with
    | .str s =>
      if s.data.all (fun c => decide (c.toNat < 255)) then .ok (st, String.mk (toyEncode s.data))
      else .error (toyError "Unsupported character")
    | _ => .error (toyError "The data argument must be of type string")
  cipherFinal _ := .ok "00"
  createDecipheriv alg _ _ :=
    if alg = "shift-hex" then .ok "" else .error (toyError "Invalid algorithm")
  decipherUpdate st m :=
    match m with
    | .str s =>
      match toyDecode s.data with
      | some cs => .ok (st ++ String.mk cs, "")
      | none => .error (toyError "Bad hex input")
    | _ => .error (toyError "The data argument must be of type string")
  decipherFinal st := .ok st

/-- A valid configuration for `toyCrypto`. -/
def toyConfig : Cryptography := ⟨"shift-hex", "key", "iv"⟩

/-- A configuration whose algorithm `toyCrypto` rejects. -/
def badConfig : Cryptography := ⟨"no-such-cipher", "key", "iv"⟩


/-! ## `src/models/auth.js`: the schema -/

/-- The collaborators of the model and the controller: the process-wide
`cryptography` instance with the primitives behind it, `validator.isEmail`,
`bcrypt.hash` (one run of it: the salt it draws is part of the function),
`bcrypt.compare`, and `jwt.sign` with the two environment values handed to it. -/
structure Env (σ : Type) where
  lib : NodeCrypto σ
  cryptography : Cryptography
  isEmail : String → Bool
  bcryptHash : JsVal → Nat → Except JsError String
  bcryptCompare : JsVal → JsVal → Except JsError Bool
  jwtSign : Obj → String → String → Except JsError String
  accessTokenSecret : String
  accessTokenLife : String

/-- The paths declared by the schema, with the store-managed ones
(`timestamps: true`, `_id`, `__v`). -/
def schemaPaths : List String :=
  ["firstname", "lastname", "email", "isAdmin", "password", "permissionLevel",
   "createdAt", "updatedAt", "_id", "__v"]

/-- The `set:` option of a path: `value => cryptography.encrypt(value)` on
`firstname`, `lastname` and `email`; the other paths declare none. (The
`trim` and `lowercase` options of the store library are not modelled; the
inputs evaluated below have no surrounding blanks and no capitals in e-mail
addresses.) -/
def setter {σ : Type} (env : Env σ) (path : String) (value : JsVal) : JsVal :=
  if path = "firstname" ∨ path = "lastname" ∨ path = "email" then
    env.cryptography.encryptValue env.lib value
  else value

/-- The `get:` option of a path: `value => cryptography.decrypt(value)` on
`firstname`, `lastname` and `email`. -/
def getter {σ : Type} (env : Env σ) (path : String) (value : JsVal) : JsVal :=
  if path = "firstname" ∨ path = "lastname" ∨ path = "email" then
    env.cryptography.decryptValue env.lib value
  else value

/-- Number of UTF-16 code units of a list of characters: two for a character
above U+FFFF, one otherwise. -/
def utf16Units : List Char → Nat
  | [] => 0
  | c :: cs => (if c.toNat < 65536 then 1 else 2) + utf16Units cs

/-- The `length` property of a JavaScript string, in UTF-16 code units. -/
def jsLength (s : String) : Nat := utf16Units s.data

/-- The `required` check of a `String` path: a string of non-zero `length`. -/
def requiredOk : JsVal → Bool
  | .str s => decide (jsLength s ≠ 0)
  | _ => false

/-- The `minLength: [n, _]` check, `v.length >= n` on the value held by the
document. Checks other than `required` are skipped on `undefined`. -/
def minLengthOk (n : Nat) : JsVal → Bool
  | .str s => decide (n ≤ jsLength s)
  | _ => true

/-- The `maxLength: [n, _]` check, `v.length <= n` on the value held by the
document. -/
def maxLengthOk (n : Nat) : JsVal → Bool
  | .str s => decide (jsLength s ≤ n)
  | _ => true

/-- The `validate.validator` of `email`:
`isEmail(cryptography.decrypt(enteredEmail))`; `isEmail` throws on a value
that is not a string, which fails the check. -/
def emailValidator {σ : Type} (env : Env σ) (enteredEmail : JsVal) : Bool :=
  match enteredEmail with
  | .undefined => true
  | v =>
    match env.cryptography.decryptValue env.lib v with
    | .str s => env.isEmail s
    | _ => false

/-- One declared check: the message it reports when it fails. -/
def check (ok : Bool) (message : String) : List String :=
  if ok then [] else [message]

/-- The checks declared on `firstname`, applied to the value the document holds. -/
def validateFirstname (held : JsVal) : List String :=
  check (requiredOk held) "First name is required."
  ++ check (minLengthOk 1 held) "The first name must be of minimum length 1 characters."
  ++ check (maxLengthOk 256 held) "The first name must be of maximum length 256 characters."

/-- The checks declared on `lastname`. -/
def validateLastname (held : JsVal) : List String :=
  check (requiredOk held) "Last name is required."
  ++ check (minLengthOk 1 held) "The last name must be of minimum length 1 characters."
  ++ check (maxLengthOk 256 held) "The last name must be of maximum length 256 characters."

/-- The checks declared on `email`. -/
def validateEmail {σ : Type} (env : Env σ) (held : JsVal) : List String :=
  check (requiredOk held) "Email address is required."
  ++ check (emailValidator env held) "Please provide a valid email address."
  ++ check (maxLengthOk 254 held) "The email must be of maximum length 254 characters."

/-- The checks declared on `password`. -/
def validatePassword (held : JsVal) : List String :=
  check (minLengthOk 10 held) "The password must be of minimum length 10 characters."
  ++ check (maxLengthOk 256 held) "The password must be of maximum length 256 characters."
  ++ check (requiredOk held) "Password is required."

/-- A document of the model: the values it holds (after setters, before
getters) and the paths marked modified. -/
structure Document where
  fields : Obj
  modified : List String
  deriving DecidableEq, Repr

/-- Cast of a value to the `String` type of a path. -/
def castString : JsVal → JsVal
  | .undefined => .undefined
  | .str s => .str s
  | .bool b => .str (if b then "true" else "false")
  | .num n => .str (toString n)

/-- Assignment of one path at construction: the setter, then the cast. -/
def assign {σ : Type} (env : Env σ) (path : String) (value : JsVal) : JsVal :=
  if path = "isAdmin" then value else castString (setter env path value)

/-- Expression `new Auth(obj)`: a fresh document with identifier `oid` (its hex
string) holding every given path; the paths given a value are marked modified. -/
def newAuth {σ : Type} (env : Env σ) (oid : String) (obj : Obj) : Document where
  fields := ("_id", .str oid) :: obj.map (fun kv => (kv.1, assign env kv.1 kv.2))
  modified := (obj.filter (fun kv => kv.2 ≠ .undefined)).map (fun kv => kv.1)

/-- All validation messages of a document. -/
def validate {σ : Type} (env : Env σ) (doc : Document) : List String :=
  validateFirstname (Obj.get "firstname" doc.fields)
  ++ validateLastname (Obj.get "lastname" doc.fields)
  ++ validateEmail env (Obj.get "email" doc.fields)
  ++ validatePassword (Obj.get "password" doc.fields)

/-- The error the store library throws when validation fails. -/
def validationError (messages : List String) : JsError :=
  ⟨"ValidationError", "Auth validation failed: " ++ ", ".intercalate messages, none, none, ""⟩

/-- The error of the store on a violated unique index. -/
def duplicateKeyError : JsError :=
  ⟨"MongoServerError", "E11000 duplicate key error collection: auths index: email_1", none,
    some 11000, ""⟩

/-- The hook `schema.pre('save', ...)`: nothing when `password` is not
modified, else `this.password = await bcrypt.hash(this.password, 12)`. -/
def preSave {σ : Type} (env : Env σ) (doc : Document) : Except JsError Document :=
  if "password" ∉ doc.modified then .ok doc
  else
    match env.bcryptHash (Obj.get "password" doc.fields) 12 with
    | .error e => .error e
    | .ok digest => .ok ⟨Obj.set "password" (.str digest) doc.fields, doc.modified⟩

/-- The collection: the stored documents, oldest first. -/
abbrev Store := List Obj

/-- Insertion under the unique index on `email` (`unique: true`). -/
def insert (store : Store) (fields : Obj) : Except JsError Store :=
  if store.any (fun d => Obj.get "email" d = Obj.get "email" fields) then
    .error duplicateKeyError
  else .ok (store ++ [fields])

/-- Method `save()` of a new document: validation, then the `pre('save')` hook,
then the insertion with the store-managed `createdAt`, `updatedAt`, `__v`. -/
def save {σ : Type} (env : Env σ) (store : Store) (now : Nat) (doc : Document) :
    Except JsError (Document × Store) :=
  match validate env doc with
  | m :: ms => .error (validationError (m :: ms))
  | [] =>
    match preSave env doc with
    | .error e => .error e
    | .ok hashed =>
      let stored := hashed.fields ++ [("createdAt", .num now), ("updatedAt", .num now), ("__v", .num 0)]
      match insert store stored with
      | .error e => .error e
      | .ok store' => .ok (⟨stored, []⟩, store')

/-- The virtual `id`: `this._id.toHexString()`. -/
def virtualId (fields : Obj) : JsVal := Obj.get "_id" fields

/-- The `toJSON.transform` option: `delete ret._id; delete ret.__v`. -/
def transform (ret : Obj) : Obj :=
  Obj.delete "__v" (Obj.delete "_id" ret)

/-- Method `toJSON()` under the schema options `getters: true`,
`virtuals: true` and `transform`. -/
def toJSON {σ : Type} (env : Env σ) (fields : Obj) : Obj :=
  transform (Obj.set "id" (virtualId fields) (fields.map (fun kv => (kv.1, getter env kv.1 kv.2))))

/-! ## `src/models/auth.js`: `authenticate` -/

/-- Call `createError(status)` of `http-errors`: an error carrying `status`,
named and worded after the status. -/
def createError (status : Nat) : JsError :=
  if status = 400 then ⟨"BadRequestError", "Bad Request", some 400, none, "BadRequestError: Bad Request"⟩
  else if status = 401 then ⟨"UnauthorizedError", "Unauthorized", some 401, none, "UnauthorizedError: Unauthorized"⟩
  else if status = 404 then ⟨"NotFoundError", "Not Found", some 404, none, "NotFoundError: Not Found"⟩
  else if status = 409 then ⟨"ConflictError", "Conflict", some 409, none, "ConflictError: Conflict"⟩
  else ⟨"Error", "Error", some status, none, "Error"⟩

/-- The filter object `{ username }` that `authenticate` hands to `findOne`. -/
def authenticateFilter (username : JsVal) : Obj := [("username", username)]

/-- Static `authenticate(username, password)`, over the query `findOne` of the
model: `findOne({ username })`, then `createError(401)` when no user was found
or `bcrypt.compare(password, user.password)` is false. -/
def authenticate {σ : Type} (env : Env σ) (findOne : Obj → Option Obj)
    (username password : JsVal) : Except JsError Obj :=
  match findOne (authenticateFilter username) with
  | none => .error (createError 401)
  | some user =>
    match env.bcryptCompare password (Obj.get "password" user) with
    | .error e => .error e
    | .ok false => .error (createError 401)
    | .ok true => .ok user

/-- How the store library prepares a filter: a condition on a schema path has
the setter of the path applied; a condition on a path the schema does not
declare is dropped under `strictQuery` and kept as it is otherwise. -/
def castFilter {σ : Type} (env : Env σ) (strictQuery : Bool) (filter : Obj) : Obj :=
  filter.filterMap (fun kv =>
    if kv.1 ∈ schemaPaths then some (kv.1, setter env kv.1 kv.2)
    else if strictQuery then none else some kv)

/-- Equality match of a stored document against a prepared filter. -/
def matchesFilter (filter : Obj) (doc : Obj) : Bool :=
  filter.all (fun kv => Obj.has kv.1 doc && decide (Obj.get kv.1 doc = kv.2))

/-- Query `findOne(filter)` on a collection: the oldest matching document. -/
def findOne {σ : Type} (env : Env σ) (strictQuery : Bool) (store : Store) (filter : Obj) :
    Option Obj :=
  store.find? (matchesFilter (castFilter env strictQuery filter))

/-! ## `src/controllers/account-controller.js` and the error handler of `src/server.js` -/

/-- What `err.cause` refers to when an error reaches the error handler: nothing,
the error itself (`err.cause = error` with `err === error`), or another error. -/
inductive CauseRef where
  | absent
  | self
  | other (e : JsError)
  deriving DecidableEq, Repr

/-- An error passed to `next`. -/
structure Forwarded where
  err : JsError
  cause : CauseRef
  deriving DecidableEq, Repr

/-- A value in a response body. -/
inductive BodyVal where
  | val (v : JsVal)
  | null
  | obj (o : Obj)
  deriving DecidableEq, Repr

/-- A response: `res.status(status).json(body)`. -/
structure Response where
  status : Nat
  body : List (String × BodyVal)
  deriving DecidableEq, Repr

/-- How a controller method ends: it sends a response or calls `next(err)`. -/
inductive Outcome where
  | respond (r : Response)
  | next (err : Forwarded)
  deriving DecidableEq, Repr

/-- The claim set built by `login`: `{ sub: formattedUser.id, x_is_admin: formattedUser.isAdmin }`. -/
def loginPayload (formattedUser : Obj) : Obj :=
  [("sub", Obj.get "id" formattedUser), ("x_is_admin", Obj.get "isAdmin" formattedUser)]

/-- Method `login(req, res, next)` on the request body `body`. -/
def login {σ : Type} (env : Env σ) (findOne : Obj → Option Obj) (body : Obj) : Outcome :=
  match authenticate env findOne (Obj.get "username" body) (Obj.get "password" body) with
  | .error error => .next ⟨error, .self⟩
  | .ok user =>
    let formattedUser := toJSON env user
    match env.jwtSign (loginPayload formattedUser) env.accessTokenSecret env.accessTokenLife with
    | .error error => .next ⟨error, .self⟩
    | .ok accessToken => .respond ⟨200, [("access_token", .val (.str accessToken))]⟩

/-- The `catch` block of `register`. -/
def registerCatch (error : JsError) : Forwarded :=
  if error.code = some 11000 then ⟨createError 409, .other error⟩
  else if error.name = "ValidationError" then ⟨createError 400, .other error⟩
  else ⟨error, .absent⟩

/-- The document `register` constructs from the request body. -/
def registerDocument {σ : Type} (env : Env σ) (oid : String) (body : Obj) : Document :=
  newAuth env oid
    [("isAdmin", .bool false), ("password", Obj.get "password" body),
     ("firstname", Obj.get "firstname" body), ("lastname", Obj.get "lastname" body),
     ("email", Obj.get "email" body)]

/-- Method `register(req, res, next)` on the request body `body`, with the
collection before the call, the identifier `oid` drawn for the new document
and the time `now`; it yields the outcome and the collection afterwards. -/
def register {σ : Type} (env : Env σ) (store : Store) (oid : String) (now : Nat) (body : Obj) :
    Outcome × Store :=
  match save env store now (registerDocument env oid body) with
  | .ok (user, store') => (.respond ⟨201, [("id", .val (virtualId user.fields))]⟩, store')
  | .error error => (.next (registerCatch error), store)

/-- The value of `err.status || 500`. -/
def statusOrDefault (status : Option Nat) : Nat :=
  match status with
  | some s => if s = 0 then 500 else s
  | none => 500

/-- The message the error handler leaves in `err.message`. -/
def handlerMessage (status : Nat) (message : String) : String :=
  if status = 400 then
    "The request cannot or will not be processed due to something that is perceived to be a client error (for example, validation error)."
  else if status = 401 then "Credentials invalid or not provided."
  else if status = 409 then "The username and/or email address is already registered."
  else if status = 500 then "An unexpected condition was encountered."
  else message

/-- An optional number as a property value. -/
def optNum : Option Nat → JsVal
  | some n => .num n
  | none => .undefined

/-- The error handler `function (err, req, res, next)` of `server.js`;
`appEnv` is `req.app.get('env')`. -/
def errorHandler (appEnv : String) (fwd : Forwarded) : Response :=
  let status := statusOrDefault fwd.err.status
  let message := handlerMessage status fwd.err.message
  if appEnv ≠ "development" then
    ⟨status, [("status", .val (.num status)), ("message", .val (.str message))]⟩
  else
    ⟨status,
      [("status", .val (.num status)), ("message", .val (.str message)),
       ("cause",
          match fwd.cause with
          | .absent => .null
          | .self =>
            .obj [("status", .num status), ("message", .str message), ("stack", .str fwd.err.stack)]
          | .other e =>
            .obj [("status", optNum e.status), ("message", .str e.message), ("stack", .str e.stack)]),
       ("stack", .val (.str fwd.err.stack))]⟩

/-- A controller outcome as seen by the client. -/
def finish (appEnv : String) : Outcome → Response
  | .respond r => r
  | .next err => errorHandler appEnv err

/-! ## A concrete environment -/

/-- A stand-in for the hash: a tagged copy of the secret. -/
def toyHash (v : JsVal) (_cost : Nat) : Except JsError String :=
  match v with
  | .str s => .ok ("$2b$12$" ++ s)
  | _ => .error (toyError "data and salt arguments required")

/-- The comparison matching `toyHash`. -/
def toyCompare (data hash : JsVal) : Except JsError Bool :=
  match data, hash with
  | .str d, .str h => .ok (decide (h = "$2b$12$" ++ d))
  | _, _ => .error (toyError "data and hash arguments required")

/-- A concrete environment over `toyCrypto`. -/
def toyEnv : Env String where
  lib := toyCrypto
  cryptography := toyConfig
  isEmail s := decide ('@' ∈ s.data)
  bcryptHash := toyHash
  bcryptCompare := toyCompare
  jwtSign payload _ _ :=
    match Obj.get "sub" payload with
    | .str sub => .ok ("jwt." ++ sub)
    | _ => .error (toyError "bad payload")
  accessTokenSecret := "secret"
  accessTokenLife := "1h"

/-- The registration request of Ann. -/
def annBody : Obj :=
  [("firstname", .str "Ann"), ("lastname", .str "Lee"), ("email", .str "ann@example.com"),
   ("password", .str "longenough1")]

/-- The registration request of Bob. -/
def bobBody : Obj :=
  [("firstname", .str "Bob"), ("lastname", .str "Ray"), ("email", .str "bob@example.com"),
   ("password", .str "bobs-secret-42")]

/-- The collection after Bob and then Ann have registered. -/
def twoUsers : Store :=
  (register toyEnv (register toyEnv [] "0b" 1 bobBody).2 "0a" 2 annBody).2

/-- A password of five characters above U+FFFF: ten UTF-16 code units. -/
def emojiPassword : String := String.mk (List.replicate 5 (Char.ofNat 128512))

/-- A name of 200 letters. -/
def longName : String := String.mk (List.replicate 200 'a')

/-- A registration request with a first name of 200 letters. -/
def longFirstnameBody : Obj :=
  [("firstname", .str longName), ("lastname", .str "Lee"), ("email", .str "ann@example.com"),
   ("password", .str "longenough1")]

/-- A registration request with a last name of 200 letters. -/
def longLastnameBody : Obj :=
  [("firstname", .str "Ann"), ("lastname", .str longName), ("email", .str "ann@example.com"),
   ("password", .str "longenough1")]

/-! ## Properties

### Plain objects -/

theorem Obj.get_delete_ne (k k' : String) (h : k' ≠ k) (o : Obj) :
    Obj.get k (Obj.delete k' o) = Obj.get k o := by
  induction o with
  | nil => rfl
  | cons kv rest ih =>
    obtain ⟨a, v⟩ := kv
    by_cases ha : a = k'
    · simp [Obj.delete, Obj.get, ha, ih, h]
    · by_cases hk : a = k
      · subst hk
        simp [Obj.delete, Obj.get, ha]
      · simp [Obj.delete, Obj.get, ha, hk, ih]

theorem Obj.has_delete_ne (k k' : String) (h : k' ≠ k) (o : Obj) :
    Obj.has k (Obj.delete k' o) = Obj.has k o := by
  induction o with
  | nil => rfl
  | cons kv rest ih =>
    obtain ⟨a, v⟩ := kv
    by_cases ha : a = k'
    · simp [Obj.delete, Obj.has, ha, ih, h]
    · by_cases hk : a = k
      · subst hk
        simp [Obj.delete, Obj.has, ha]
      · simp [Obj.delete, Obj.has, ha, hk, ih]

theorem Obj.has_delete_same (k : String) (o : Obj) : Obj.has k (Obj.delete k o) = false := by
  induction o with
  | nil => rfl
  | cons kv rest ih =>
    obtain ⟨a, v⟩ := kv
    by_cases ha : a = k <;> simp [Obj.delete, Obj.has, ha, ih]

theorem Obj.get_set_same (k : String) (v : JsVal) (o : Obj) : Obj.get k (Obj.set k v o) = v := by
  induction o with
  | nil => simp [Obj.set, Obj.get]
  | cons kv rest ih =>
    obtain ⟨a, w⟩ := kv
    by_cases ha : a = k <;> simp [Obj.set, Obj.get, ha, ih]

theorem Obj.get_set_ne (k k' : String) (v : JsVal) (h : k' ≠ k) (o : Obj) :
    Obj.get k (Obj.set k' v o) = Obj.get k o := by
  induction o with
  | nil => simp [Obj.set, Obj.get, h]
  | cons kv rest ih =>
    obtain ⟨a, w⟩ := kv
    by_cases ha : a = k'
    · simp [Obj.set, Obj.get, ha, h]
    · by_cases hk : a = k
      · subst hk
        simp [Obj.set, Obj.get, ha]
      · simp [Obj.set, Obj.get, ha, hk, ih]

theorem Obj.has_set_ne (k k' : String) (v : JsVal) (h : k' ≠ k) (o : Obj) :
    Obj.has k (Obj.set k' v o) = Obj.has k o := by
  induction o with
  | nil => simp [Obj.set, Obj.has, h]
  | cons kv rest ih =>
    obtain ⟨a, w⟩ := kv
    by_cases ha : a = k'
    · simp [Obj.set, Obj.has, ha, h]
    · by_cases hk : a = k
      · subst hk
        simp [Obj.set, Obj.has, ha]
      · simp [Obj.set, Obj.has, ha, hk, ih]

theorem Obj.get_map (f : String → JsVal → JsVal) (k : String) (o : Obj) :
    Obj.get k (o.map (fun kv => (kv.1, f kv.1 kv.2))) =
      if Obj.has k o then f k (Obj.get k o) else .undefined := by
  induction o with
  | nil => rfl
  | cons kv rest ih =>
    obtain ⟨a, w⟩ := kv
    by_cases ha : a = k
    · simp [Obj.get, Obj.has, ha]
    · simp [Obj.get, Obj.has, ha, ih]

theorem Obj.has_map (f : String → JsVal → JsVal) (k : String) (o : Obj) :
    Obj.has k (o.map (fun kv => (kv.1, f kv.1 kv.2))) = Obj.has k o := by
  induction o with
  | nil => rfl
  | cons kv rest ih =>
    obtain ⟨a, w⟩ := kv
    by_cases ha : a = k <;> simp [Obj.has, ha, ih]

theorem Obj.get_of_not_has (k : String) (o : Obj) (h : Obj.has k o = false) :
    Obj.get k o = .undefined := by
  induction o with
  | nil => rfl
  | cons kv rest ih =>
    obtain ⟨a, w⟩ := kv
    by_cases ha : a = k
    · simp [Obj.has, ha] at h
    · simp [Obj.has, ha] at h
      simp [Obj.get, ha, ih h]

/-! ### The field cipher -/

theorem encrypt_of_body_ok {σ : Type} (lib : NodeCrypto σ) (c : Cryptography) (m : JsVal)
    (ct : String) (h : c.encryptBody lib m = .ok ct) :
    c.encryptValue lib m = .str ct := by
  simp [Cryptography.encryptValue, Cryptography.encrypt, h]

theorem decrypt_of_body_ok {σ : Type} (lib : NodeCrypto σ) (c : Cryptography) (m : JsVal)
    (p : String) (h : c.decryptBody lib m = .ok p) :
    c.decryptValue lib m = .str p := by
  simp [Cryptography.decryptValue, Cryptography.decrypt, h]

/-- C3, evaluated on the code: under a configuration whose algorithm the
primitive rejects, the `try` body of `encrypt` and of `decrypt` throws, yet
both calls complete normally and hand `undefined` to the caller, where their
doc comments promise a string and the claim an error that reaches the caller. -/
theorem cipher_failure_not_propagated :
    badConfig.encryptBody toyCrypto (.str "Ann") = .error (toyError "Invalid algorithm")
    ∧ (badConfig.encrypt toyCrypto (.str "Ann")).result = .ok .undefined
    ∧ badConfig.decryptBody toyCrypto (.str "426f6f00") = .error (toyError "Invalid algorithm")
    ∧ (badConfig.decrypt toyCrypto (.str "426f6f00")).result = .ok .undefined :=
  ⟨rfl, rfl, rfl, rfl⟩

/-- On every rejection by the cipher primitive, `encrypt` and `decrypt` pass
the error to `console.log` and complete with `undefined`. -/
theorem cipher_failure_logged {σ : Type} (lib : NodeCrypto σ) (c : Cryptography)
    (m : JsVal) (e : JsError) :
    (c.encryptBody lib m = .error e →
      (c.encrypt lib m).result = .ok .undefined ∧ (c.encrypt lib m).console = [e])
    ∧ (c.decryptBody lib m = .error e →
      (c.decrypt lib m).result = .ok .undefined ∧ (c.decrypt lib m).console = [e]) := by
  constructor
  · intro h
    simp [Cryptography.encrypt, h]
  · intro h
    simp [Cryptography.decrypt, h]

theorem hexValue_hexDigit (n : Nat) (h : n < 16) : hexValue (hexDigit n) = some n := by
  interval_cases n <;> rfl

theorem toyDecode_toyEncode (cs : List Char)
    (h : cs.all (fun c => decide (c.toNat < 255)) = true) :
    toyDecode (toyEncode cs ++ ['0', '0']) = some cs := by
  induction cs with
  | nil => rfl
  | cons c cs ih =>
    simp only [List.all_cons, Bool.and_eq_true, decide_eq_true_eq] at h
    obtain ⟨hc, hcs⟩ := h
    have hb : (c.toNat + 1) % 256 = c.toNat + 1 := Nat.mod_eq_of_lt (by omega)
    have h1 : hexValue (hexDigit ((c.toNat + 1) / 16)) = some ((c.toNat + 1) / 16) :=
      hexValue_hexDigit _ (by omega)
    have h2 : hexValue (hexDigit ((c.toNat + 1) % 16)) = some ((c.toNat + 1) % 16) :=
      hexValue_hexDigit _ (by omega)
    have h3 : 16 * ((c.toNat + 1) / 16) + (c.toNat + 1) % 16 = c.toNat + 1 :=
      Nat.div_add_mod _ _
    have h4 : (c.toNat + 1 + 255) % 256 = c.toNat := by omega
    simp only [toyEncode, hb, List.cons_append, toyDecode, h1, h2, h3, h4,
      Char.ofNat_toNat]
    simp only [List.append_eq, ih hcs]
    simp

/-- The concrete primitives are inverse to each other. -/
theorem toyCrypto_inverse : PrimitivesInverse toyCrypto toyConfig := by
  intro cipher decipher hC hD p cipher' s last hU hF
  simp only [toyCrypto, toyConfig, if_true, Except.ok.injEq] at hC hD hF
  subst hC hD hF
  by_cases hAll : p.data.all (fun c => decide (c.toNat < 255)) = true
  · simp only [toyCrypto, hAll, if_true, Except.ok.injEq, Prod.mk.injEq] at hU
    obtain ⟨hc', hs⟩ := hU
    subst hc' hs
    refine ⟨"" ++ String.mk p.data, "", "" ++ String.mk p.data, ?_, rfl, ?_⟩
    · have hd : (String.mk (toyEncode p.data) ++ "00").data = toyEncode p.data ++ ['0', '0'] :=
        rfl
      simp only [toyCrypto, hd, toyDecode_toyEncode p.data hAll]
    · simp
  · have hNot : ¬ ∀ x ∈ p.data, x.toNat < 255 := by
      intro hx
      exact hAll (by simpa using hx)
    simp [toyCrypto, hNot] at hU

/-- C6: under a configuration for which a cipher and a decipher object are
created, with cipher and decipher primitives that are inverse to each other
(`PrimitivesInverse`), for every plaintext `p` the cipher accepts (`update`
yields `s`, `final` yields `last`): `encrypt(p)` returns `s ++ last`,
`decrypt` of that ciphertext returns `p`, and `decrypt(encrypt(p))` is `p`. -/
theorem decrypt_encrypt_roundtrip {σ : Type} (lib : NodeCrypto σ) (c : Cryptography)
    (p : String) (cipher decipher cipher' : σ) (s last : String)
    (hInv : PrimitivesInverse lib c)
    (hCipher : lib.createCipheriv c.algorithm c.securityKey c.initVector = .ok cipher)
    (hDecipher : lib.createDecipheriv c.algorithm c.securityKey c.initVector = .ok decipher)
    (hUpdate : lib.cipherUpdate cipher (.str p) = .ok (cipher', s))
    (hFinal : lib.cipherFinal cipher' = .ok last) :
    (c.encrypt lib (.str p)).result = .ok (.str (s ++ last))
    ∧ (c.decrypt lib (.str (s ++ last))).result = .ok (.str p)
    ∧ c.decryptValue lib (c.encryptValue lib (.str p)) = .str p := by
  have hEnc : c.encryptBody lib (.str p) = .ok (s ++ last) := by
    simp [Cryptography.encryptBody, hCipher, hUpdate, hFinal]
  obtain ⟨decipher', t, tl, hDU, hDF, hEq⟩ :=
    hInv cipher decipher hCipher hDecipher p cipher' s last hUpdate hFinal
  have hDec : c.decryptBody lib (.str (s ++ last)) = .ok p := by
    simp [Cryptography.decryptBody, hDecipher, hDU, hDF, hEq]
  refine ⟨by simp [Cryptography.encrypt, hEnc], by simp [Cryptography.decrypt, hDec], ?_⟩
  rw [encrypt_of_body_ok lib c _ _ hEnc, decrypt_of_body_ok lib c _ p hDec]

theorem decrypt_encrypt_roundtrip_witness :
    (toyConfig.encrypt toyCrypto (.str "ann@example.com")).result
        = .ok (.str ("626f6f416679626e716d662f64706e" ++ "00"))
    ∧ (toyConfig.decrypt toyCrypto (.str ("626f6f416679626e716d662f64706e" ++ "00"))).result
        = .ok (.str "ann@example.com")
    ∧ toyConfig.decryptValue toyCrypto (toyConfig.encryptValue toyCrypto (.str "ann@example.com"))
        = .str "ann@example.com" :=
  decrypt_encrypt_roundtrip toyCrypto toyConfig "ann@example.com" "" "" ""
    "626f6f416679626e716d662f64706e" "00" toyCrypto_inverse rfl rfl rfl rfl

/-! ### Serialisation -/

theorem getter_other {σ : Type} (env : Env σ) (path : String) (v : JsVal)
    (h1 : path ≠ "firstname") (h2 : path ≠ "lastname") (h3 : path ≠ "email") :
    getter env path v = v := by
  simp [getter, h1, h2, h3]

theorem toJSON_get_id {σ : Type} (env : Env σ) (fields : Obj) :
    Obj.get "id" (toJSON env fields) = virtualId fields := by
  unfold toJSON transform
  rw [Obj.get_delete_ne "id" "__v" (by decide), Obj.get_delete_ne "id" "_id" (by decide),
    Obj.get_set_same]

theorem toJSON_has_other {σ : Type} (env : Env σ) (fields : Obj) (k : String)
    (h1 : k ≠ "__v") (h2 : k ≠ "_id") (h3 : k ≠ "id") :
    Obj.has k (toJSON env fields) = Obj.has k fields := by
  unfold toJSON transform
  rw [Obj.has_delete_ne k "__v" (Ne.symm h1), Obj.has_delete_ne k "_id" (Ne.symm h2),
    Obj.has_set_ne k "id" _ (Ne.symm h3), Obj.has_map (getter env)]

theorem toJSON_get_other {σ : Type} (env : Env σ) (fields : Obj) (k : String)
    (h1 : k ≠ "__v") (h2 : k ≠ "_id") (h3 : k ≠ "id")
    (h4 : k ≠ "firstname") (h5 : k ≠ "lastname") (h6 : k ≠ "email") :
    Obj.get k (toJSON env fields) = Obj.get k fields := by
  unfold toJSON transform
  rw [Obj.get_delete_ne k "__v" (Ne.symm h1), Obj.get_delete_ne k "_id" (Ne.symm h2),
    Obj.get_set_ne k "id" _ (Ne.symm h3), Obj.get_map (getter env), getter_other env k _ h4 h5 h6]
  cases hk : Obj.has k fields
  · simp [Obj.get_of_not_has k fields hk]
  · simp

/-- The part of C2 that the code keeps: the serialised form has no `_id` and no
`__v` property. -/
theorem toJSON_drops_internal_ids {σ : Type} (env : Env σ) (fields : Obj) :
    Obj.has "_id" (toJSON env fields) = false ∧ Obj.has "__v" (toJSON env fields) = false := by
  unfold toJSON transform
  constructor
  · rw [Obj.has_delete_ne "_id" "__v" (by decide), Obj.has_delete_same]
  · rw [Obj.has_delete_same]

/-- C2, evaluated on the code: `toJSON` keeps the `password` property. Every
record that holds a password hash serialises to an object that has a
`password` property carrying that very hash. -/
theorem toJSON_keeps_password {σ : Type} (env : Env σ) (fields : Obj)
    (h : Obj.has "password" fields = true) :
    Obj.has "password" (toJSON env fields) = true
    ∧ Obj.get "password" (toJSON env fields) = Obj.get "password" fields := by
  constructor
  · rw [toJSON_has_other env fields "password" (by decide) (by decide) (by decide), h]
  · exact toJSON_get_other env fields "password" (by decide) (by decide) (by decide)
      (by decide) (by decide) (by decide)

theorem toJSON_keeps_password_witness :
    Obj.has "password" (toJSON toyEnv (twoUsers.getD 1 [])) = true
    ∧ Obj.get "password" (toJSON toyEnv (twoUsers.getD 1 [])) = .str "$2b$12$longenough1" :=
  toJSON_keeps_password toyEnv (twoUsers.getD 1 []) (by decide)

/-! ### Login -/

/-- C8: when `authenticate` returns a record and `jwt.sign` returns a token for
the claim set, the claim set signed by `login` is
`{ sub: <hex string of the record's _id>, x_is_admin: <the record's isAdmin> }`
and the response is status 200 with body `{ access_token: <the token> }`. -/
theorem login_success {σ : Type} (env : Env σ) (findOne : Obj → Option Obj) (body user : Obj)
    (accessToken : String)
    (hAuth : authenticate env findOne (Obj.get "username" body) (Obj.get "password" body)
      = .ok user)
    (hSign : env.jwtSign (loginPayload (toJSON env user)) env.accessTokenSecret
      env.accessTokenLife = .ok accessToken) :
    loginPayload (toJSON env user)
        = [("sub", virtualId user), ("x_is_admin", Obj.get "isAdmin" user)]
    ∧ login env findOne body
        = .respond ⟨200, [("access_token", .val (.str accessToken))]⟩ := by
  constructor
  · unfold loginPayload
    rw [toJSON_get_id, toJSON_get_other env user "isAdmin" (by decide) (by decide) (by decide)
      (by decide) (by decide) (by decide)]
  · unfold login
    rw [hAuth]
    simp only [hSign]

theorem login_success_witness :
    loginPayload (toJSON toyEnv (twoUsers.getD 0 []))
        = [("sub", virtualId (twoUsers.getD 0 [])),
           ("x_is_admin", Obj.get "isAdmin" (twoUsers.getD 0 []))]
    ∧ login toyEnv (findOne toyEnv true twoUsers)
          [("username", .str "bob@example.com"), ("password", .str "bobs-secret-42")]
        = .respond ⟨200, [("access_token", .val (.str "jwt.0b"))]⟩ :=
  login_success toyEnv (findOne toyEnv true twoUsers)
    [("username", .str "bob@example.com"), ("password", .str "bobs-secret-42")]
    (twoUsers.getD 0 []) "jwt.0b" rfl rfl

/-- C5: a login for which `findOne` finds no record and a login for which it
finds a record whose password comparison is false both make `authenticate`
throw `createError(401)`, and the client receives the same response in both
cases: status 401 with the message 'Credentials invalid or not provided.'. -/
theorem login_failures_indistinguishable {σ : Type} (env : Env σ)
    (findOne₁ findOne₂ : Obj → Option Obj) (body₁ body₂ user : Obj) (appEnv : String)
    (hNone : findOne₁ (authenticateFilter (Obj.get "username" body₁)) = none)
    (hSome : findOne₂ (authenticateFilter (Obj.get "username" body₂)) = some user)
    (hCmp : env.bcryptCompare (Obj.get "password" body₂) (Obj.get "password" user) = .ok false) :
    authenticate env findOne₁ (Obj.get "username" body₁) (Obj.get "password" body₁)
        = .error (createError 401)
    ∧ authenticate env findOne₂ (Obj.get "username" body₂) (Obj.get "password" body₂)
        = .error (createError 401)
    ∧ finish appEnv (login env findOne₁ body₁) = finish appEnv (login env findOne₂ body₂)
    ∧ (finish appEnv (login env findOne₁ body₁)).status = 401
    ∧ ("message", BodyVal.val (.str "Credentials invalid or not provided."))
        ∈ (finish appEnv (login env findOne₁ body₁)).body := by
  have h1 : authenticate env findOne₁ (Obj.get "username" body₁) (Obj.get "password" body₁)
      = .error (createError 401) := by
    simp [authenticate, hNone]
  have h2 : authenticate env findOne₂ (Obj.get "username" body₂) (Obj.get "password" body₂)
      = .error (createError 401) := by
    simp [authenticate, hSome, hCmp]
  refine ⟨h1, h2, ?_, ?_, ?_⟩
  · simp [login, h1, h2]
  · simp [login, h1, finish, errorHandler, createError, statusOrDefault]
    split <;> rfl
  · simp only [login, h1, finish, errorHandler, createError, statusOrDefault, handlerMessage]
    split <;> simp

theorem login_failures_indistinguishable_witness :
    finish "production" (login toyEnv (findOne toyEnv false twoUsers)
        [("username", .str "nouser"), ("password", .str "anything")])
      = finish "production" (login toyEnv (findOne toyEnv true twoUsers)
        [("username", .str "bob@example.com"), ("password", .str "wrongpass")]) :=
  (login_failures_indistinguishable toyEnv (findOne toyEnv false twoUsers)
    (findOne toyEnv true twoUsers)
    [("username", .str "nouser"), ("password", .str "anything")]
    [("username", .str "bob@example.com"), ("password", .str "wrongpass")]
    (twoUsers.getD 0 []) "production" rfl rfl rfl).2.2.1

/-! ### The lookup of `authenticate` -/

theorem authenticateFilter_no_email (username : JsVal) :
    Obj.has "email" (authenticateFilter username) = false
    ∧ Obj.get "username" (authenticateFilter username) = username := by
  simp [authenticateFilter, Obj.has, Obj.get]

/-- C1, evaluated on the code: `authenticate` hands `findOne` the filter
`{ username: <identifier> }`, which has no condition on `email` and carries the
identifier unencrypted. With Bob and Ann registered, `authenticate` with
Ann's e-mail address and password throws `createError(401)` whether or not the
store library drops conditions on undeclared paths, although a filter on
`email` finds Ann's record. -/
theorem authenticate_registered_user_rejected :
    authenticateFilter (.str "ann@example.com") = [("username", .str "ann@example.com")]
    ∧ Obj.get "email" (twoUsers.getD 1 []) = toyConfig.encryptValue toyCrypto (.str "ann@example.com")
    ∧ authenticate toyEnv (findOne toyEnv false twoUsers)
        (.str "ann@example.com") (.str "longenough1") = .error (createError 401)
    ∧ authenticate toyEnv (findOne toyEnv true twoUsers)
        (.str "ann@example.com") (.str "longenough1") = .error (createError 401)
    ∧ findOne toyEnv false twoUsers [("email", .str "ann@example.com")]
        = some (twoUsers.getD 1 [])
    ∧ findOne toyEnv true twoUsers [("email", .str "ann@example.com")]
        = some (twoUsers.getD 1 []) := by
  refine ⟨rfl, by decide, rfl, rfl, by decide, by decide⟩

/-! ### Registration failures and the error handler -/

/-- C7: when `save` fails in `register` with an error whose `code` is 11000,
`register` forwards `createError(409)` whatever the name of the error, and the
client receives status 409 with the message 'The username and/or email
address is already registered.'; when the error is named 'ValidationError' and
its code is not 11000, `register` forwards `createError(400)` and the client
receives status 400. -/
theorem register_duplicate_is_conflict {σ : Type} (env : Env σ) (store : Store) (oid : String)
    (now : Nat) (body : Obj) (error : JsError) (appEnv : String)
    (hSave : save env store now (registerDocument env oid body) = .error error) :
    (error.code = some 11000 →
      (register env store oid now body).1 = .next ⟨createError 409, .other error⟩
      ∧ (finish appEnv (register env store oid now body).1).status = 409
      ∧ ("message", BodyVal.val (.str "The username and/or email address is already registered."))
          ∈ (finish appEnv (register env store oid now body).1).body)
    ∧ (error.code ≠ some 11000 → error.name = "ValidationError" →
      (register env store oid now body).1 = .next ⟨createError 400, .other error⟩
      ∧ (finish appEnv (register env store oid now body).1).status = 400) := by
  have hReg : (register env store oid now body).1 = .next (registerCatch error) := by
    simp [register, hSave]
  constructor
  · intro hCode
    have hCatch : registerCatch error = ⟨createError 409, .other error⟩ := by
      simp [registerCatch, hCode]
    rw [hReg, hCatch]
    refine ⟨rfl, ?_, ?_⟩
    · simp only [finish, errorHandler, createError, statusOrDefault]
      split <;> rfl
    · simp only [finish, errorHandler, createError, statusOrDefault, handlerMessage]
      split <;> simp
  · intro hCode hName
    have hCatch : registerCatch error = ⟨createError 400, .other error⟩ := by
      simp [registerCatch, hCode, hName]
    rw [hReg, hCatch]
    refine ⟨rfl, ?_⟩
    simp only [finish, errorHandler, createError, statusOrDefault]
    split <;> rfl

theorem register_duplicate_is_conflict_witness :
    (register toyEnv twoUsers "0c" 3 annBody).1 = .next ⟨createError 409, .other duplicateKeyError⟩
    ∧ (finish "production" (register toyEnv twoUsers "0c" 3 annBody).1).status = 409
    ∧ ("message", BodyVal.val (.str "The username and/or email address is already registered."))
        ∈ (finish "production" (register toyEnv twoUsers "0c" 3 annBody).1).body :=
  (register_duplicate_is_conflict toyEnv twoUsers "0c" 3 annBody duplicateKeyError "production"
    rfl).1 rfl

/-- C10: for every error reaching the error handler, the response status is
the error's status (500 when it has none; `err.status || 500` answers 500 for
the falsy status 0 as well), the body carries that status and a message, outside the development mode the body is exactly the two fields
`status` and `message`, and for the statuses 400, 401, 409 and 500 the message
is a fixed string that does not depend on the message of the error. -/
theorem error_envelope (appEnv : String) (fwd : Forwarded) :
    (∀ s, fwd.err.status = some s → s ≠ 0 → (errorHandler appEnv fwd).status = s)
    ∧ (fwd.err.status = none → (errorHandler appEnv fwd).status = 500)
    ∧ ("status", BodyVal.val (.num (errorHandler appEnv fwd).status))
        ∈ (errorHandler appEnv fwd).body
    ∧ ("message", BodyVal.val
          (.str (handlerMessage (errorHandler appEnv fwd).status fwd.err.message)))
        ∈ (errorHandler appEnv fwd).body
    ∧ (appEnv ≠ "development" →
        (errorHandler appEnv fwd).body
          = [("status", .val (.num (errorHandler appEnv fwd).status)),
             ("message", .val
               (.str (handlerMessage (errorHandler appEnv fwd).status fwd.err.message)))])
    ∧ (∀ m : String,
        handlerMessage 400 m = "The request cannot or will not be processed due to something that is perceived to be a client error (for example, validation error)."
        ∧ handlerMessage 401 m = "Credentials invalid or not provided."
        ∧ handlerMessage 409 m = "The username and/or email address is already registered."
        ∧ handlerMessage 500 m = "An unexpected condition was encountered.") := by
  have hStatus : (errorHandler appEnv fwd).status = statusOrDefault fwd.err.status := by
    unfold errorHandler
    split <;> rfl
  refine ⟨?_, ?_, ?_, ?_, ?_, ?_⟩
  · intro s hs hne
    rw [hStatus, hs]
    simp [statusOrDefault, hne]
  · intro hs
    rw [hStatus, hs]
    rfl
  · rw [hStatus]
    unfold errorHandler
    split <;> simp
  · rw [hStatus]
    unfold errorHandler
    split <;> simp
  · intro hMode
    rw [hStatus]
    simp [errorHandler, hMode]
  · intro m
    simp [handlerMessage]

theorem error_envelope_witness :
    (errorHandler "production" ⟨createError 404, .absent⟩).status = 404
    ∧ (errorHandler "production" ⟨validationError ["Password is required."], .absent⟩).status
        = 500
    ∧ (errorHandler "production" ⟨createError 401, .self⟩).body
        = [("status", .val (.num 401)),
           ("message", .val (.str "Credentials invalid or not provided."))] :=
  ⟨(error_envelope "production" ⟨createError 404, .absent⟩).1 404 rfl (by decide),
   (error_envelope "production" ⟨validationError ["Password is required."], .absent⟩).2.1 rfl,
   (error_envelope "production" ⟨createError 401, .self⟩).2.2.2.2.1 (by decide)⟩

/-! ### Validation -/

theorem assign_password {σ : Type} (env : Env σ) (v : JsVal) :
    assign env "password" v = castString v := by
  simp [assign, setter]

theorem assign_pii_ok {σ : Type} (env : Env σ) (path p ct : String)
    (hPath : path = "firstname" ∨ path = "lastname" ∨ path = "email")
    (h : env.cryptography.encryptBody env.lib (.str p) = .ok ct) :
    assign env path (.str p) = .str ct := by
  have hne : path ≠ "isAdmin" := by
    rcases hPath with h | h | h <;> rw [h] <;> decide
  simp [assign, setter, hne, hPath, encrypt_of_body_ok env.lib env.cryptography _ ct h,
    castString]

theorem validatePassword_iff (p : String) :
    validatePassword (.str p) = [] ↔ 10 ≤ jsLength p ∧ jsLength p ≤ 256 := by
  unfold validatePassword check minLengthOk maxLengthOk requiredOk
  by_cases h1 : 10 ≤ jsLength p <;> by_cases h2 : jsLength p ≤ 256 <;> simp [h1, h2]
  omega

/-- The length checks of `firstname` see the ciphertext: when the cipher maps
the name `p` to `ct`, the checks pass exactly when the `length` of `ct` is
between 1 and 256. -/
theorem validateFirstname_on_ciphertext {σ : Type} (env : Env σ) (p ct : String)
    (h : env.cryptography.encryptBody env.lib (.str p) = .ok ct) :
    validateFirstname (assign env "firstname" (.str p)) = []
      ↔ 1 ≤ jsLength ct ∧ jsLength ct ≤ 256 := by
  rw [assign_pii_ok env "firstname" p ct (Or.inl rfl) h]
  unfold validateFirstname check minLengthOk maxLengthOk requiredOk
  by_cases h1 : 1 ≤ jsLength ct <;> by_cases h2 : jsLength ct ≤ 256 <;> simp [h1, h2]
  all_goals omega

/-- The password checks count UTF-16 code units: five characters above U+FFFF
have `length` 10 and pass. -/
theorem emojiPassword_accepted :
    emojiPassword.length = 5 ∧ jsLength emojiPassword = 10
    ∧ validatePassword (.str emojiPassword) = [] := by
  refine ⟨by decide, by decide, by decide⟩

set_option maxRecDepth 100000 in
/-- C4, evaluated on the code: a first name and a last name of 200 characters,
within the declared range of 1 to 256, fail the maximum-length check, because
the check is applied to the hex ciphertext held by the document (402
characters here); the registration is refused with `createError(400)` and
nothing is stored. -/
theorem name_of_200_characters_rejected :
    longName.length = 200
    ∧ jsLength longName = 200
    ∧ validateFirstname (assign toyEnv "firstname" (.str longName))
        = ["The first name must be of maximum length 256 characters."]
    ∧ validateLastname (assign toyEnv "lastname" (.str longName))
        = ["The last name must be of maximum length 256 characters."]
    ∧ register toyEnv [] "0a" 1 longFirstnameBody
        = (.next ⟨createError 400, .other (validationError
            ["The first name must be of maximum length 256 characters."])⟩, [])
    ∧ register toyEnv [] "0a" 1 longLastnameBody
        = (.next ⟨createError 400, .other (validationError
            ["The last name must be of maximum length 256 characters."])⟩, []) := by
  refine ⟨by decide, by decide, by decide, by decide, rfl, rfl⟩

/-! ### The password boundary -/

theorem registerDocument_fields {σ : Type} (env : Env σ) (oid : String) (body : Obj) :
    (registerDocument env oid body).fields =
      [("_id", .str oid), ("isAdmin", .bool false),
       ("password", castString (Obj.get "password" body)),
       ("firstname", assign env "firstname" (Obj.get "firstname" body)),
       ("lastname", assign env "lastname" (Obj.get "lastname" body)),
       ("email", assign env "email" (Obj.get "email" body))] := by
  simp [registerDocument, newAuth, assign, setter]

theorem registerDocument_password_modified {σ : Type} (env : Env σ) (oid : String) (body : Obj)
    (p : String) (hPw : Obj.get "password" body = .str p) :
    "password" ∈ (registerDocument env oid body).modified := by
  simp [registerDocument, newAuth, hPw, List.filter]

theorem validate_registerDocument {σ : Type} (env : Env σ) (oid : String) (body : Obj)
    (p : String) (hPw : Obj.get "password" body = .str p)
    (hFirst : validateFirstname (assign env "firstname" (Obj.get "firstname" body)) = [])
    (hLast : validateLastname (assign env "lastname" (Obj.get "lastname" body)) = [])
    (hEmail : validateEmail env (assign env "email" (Obj.get "email" body)) = []) :
    validate env (registerDocument env oid body) = validatePassword (.str p) := by
  unfold validate
  rw [registerDocument_fields]
  simp [Obj.get, hFirst, hLast, hEmail, hPw, castString]

/-- C9: with first name, last name and e-mail passing their checks and the
e-mail not yet stored, the password held by the document at validation is the
plaintext of the request; the password checks pass exactly for lengths (in
UTF-16 code units) 10 to 256; a shorter or longer password (length 9, say) makes `register` answer
status 400 and store nothing; a password within the range (length 10, say),
once `bcrypt.hash` has returned its digest, makes `register` answer 201 with
the id and store the record with the digest in place of the password. -/
theorem password_length_boundary {σ : Type} (env : Env σ) (store : Store) (oid : String)
    (now : Nat) (body : Obj) (p : String) (appEnv : String)
    (hPw : Obj.get "password" body = .str p)
    (hFirst : validateFirstname (assign env "firstname" (Obj.get "firstname" body)) = [])
    (hLast : validateLastname (assign env "lastname" (Obj.get "lastname" body)) = [])
    (hEmail : validateEmail env (assign env "email" (Obj.get "email" body)) = [])
    (hUnused : store.any
      (fun d => Obj.get "email" d = assign env "email" (Obj.get "email" body)) = false) :
    Obj.get "password" (registerDocument env oid body).fields = .str p
    ∧ (validatePassword (.str p) = [] ↔ 10 ≤ jsLength p ∧ jsLength p ≤ 256)
    ∧ (jsLength p < 10 ∨ 256 < jsLength p →
        (finish appEnv (register env store oid now body).1).status = 400
        ∧ (register env store oid now body).2 = store)
    ∧ (10 ≤ jsLength p ∧ jsLength p ≤ 256 →
        ∀ digest, env.bcryptHash (.str p) 12 = .ok digest →
          (register env store oid now body).1 = .respond ⟨201, [("id", .val (.str oid))]⟩
          ∧ ∃ stored, (register env store oid now body).2 = store ++ [stored]
              ∧ Obj.get "password" stored = .str digest) := by
  have hVal := validate_registerDocument env oid body p hPw hFirst hLast hEmail
  refine ⟨?_, validatePassword_iff p, ?_, ?_⟩
  · rw [registerDocument_fields]
    simp [Obj.get, hPw, castString]
  · intro hLen
    have hBad : validatePassword (.str p) ≠ [] := by
      intro h
      have := (validatePassword_iff p).1 h
      omega
    cases hv : validatePassword (.str p) with
    | nil => exact absurd hv hBad
    | cons m ms =>
      have hSave : save env store now (registerDocument env oid body)
          = .error (validationError (m :: ms)) := by
        simp [save, hVal, hv]
      have hCatch : registerCatch (validationError (m :: ms))
          = ⟨createError 400, .other (validationError (m :: ms))⟩ := by
        simp [registerCatch, validationError]
      simp only [register, hSave, hCatch, finish, errorHandler, createError, statusOrDefault]
      constructor
      · split <;> rfl
      · trivial
  · intro hLen digest hHash
    have hGood : validatePassword (.str p) = [] := (validatePassword_iff p).2 hLen
    have hMod := registerDocument_password_modified env oid body p hPw
    have hPre : preSave env (registerDocument env oid body)
        = .ok ⟨Obj.set "password" (.str digest) (registerDocument env oid body).fields,
            (registerDocument env oid body).modified⟩ := by
      unfold preSave
      rw [if_neg (by simpa using hMod)]
      rw [registerDocument_fields]
      simp [Obj.get, hPw, castString, hHash]
    have hSave : save env store now (registerDocument env oid body)
        = .ok (⟨Obj.set "password" (.str digest) (registerDocument env oid body).fields
                  ++ [("createdAt", .num now), ("updatedAt", .num now), ("__v", .num 0)], []⟩,
               store ++ [Obj.set "password" (.str digest) (registerDocument env oid body).fields
                  ++ [("createdAt", .num now), ("updatedAt", .num now), ("__v", .num 0)]]) := by
      unfold save
      rw [hVal, hGood]
      simp only [hPre]
      have hIns : insert store
          (Obj.set "password" (.str digest) (registerDocument env oid body).fields
            ++ [("createdAt", .num now), ("updatedAt", .num now), ("__v", .num 0)])
          = .ok (store ++ [Obj.set "password" (.str digest)
              (registerDocument env oid body).fields
            ++ [("createdAt", .num now), ("updatedAt", .num now), ("__v", .num 0)]]) := by
        unfold insert
        rw [registerDocument_fields]
        simp only [Obj.set, Obj.get, List.cons_append, List.nil_append]
        simp only [show ("_id" : String) ≠ "password" from by decide,
          show ("isAdmin" : String) ≠ "password" from by decide,
          show ("_id" : String) ≠ "email" from by decide,
          show ("isAdmin" : String) ≠ "email" from by decide,
          show ("password" : String) ≠ "email" from by decide,
          show ("firstname" : String) ≠ "email" from by decide,
          show ("lastname" : String) ≠ "email" from by decide, if_true, if_false]
        rw [hUnused]
        rfl
      rw [hIns]
    constructor
    · simp only [register, hSave]
      rw [registerDocument_fields]
      simp [virtualId, Obj.set, Obj.get]
    · refine ⟨Obj.set "password" (.str digest) (registerDocument env oid body).fields
          ++ [("createdAt", .num now), ("updatedAt", .num now), ("__v", .num 0)], ?_, ?_⟩
      · simp only [register, hSave]
      · rw [registerDocument_fields]
        simp [Obj.set, Obj.get]

theorem password_length_boundary_witness :
    (finish "production" (register toyEnv [] "0a" 1
        [("firstname", .str "Ann"), ("lastname", .str "Lee"), ("email", .str "ann@example.com"),
         ("password", .str "short-pw9")]).1).status = 400
    ∧ (register toyEnv [] "0a" 1
        [("firstname", .str "Ann"), ("lastname", .str "Lee"), ("email", .str "ann@example.com"),
         ("password", .str "exactly-10")]).1 = .respond ⟨201, [("id", .val (.str "0a"))]⟩
    ∧ (register toyEnv [] "0a" 1
        [("firstname", .str "Ann"), ("lastname", .str "Lee"), ("email", .str "ann@example.com"),
         ("password", .str emojiPassword)]).1 = .respond ⟨201, [("id", .val (.str "0a"))]⟩ :=
  ⟨((password_length_boundary toyEnv [] "0a" 1
        [("firstname", .str "Ann"), ("lastname", .str "Lee"), ("email", .str "ann@example.com"),
         ("password", .str "short-pw9")] "short-pw9" "production"
        rfl (by decide) (by decide) (by decide) rfl).2.2.1 (Or.inl (by decide))).1,
   ((password_length_boundary toyEnv [] "0a" 1
        [("firstname", .str "Ann"), ("lastname", .str "Lee"), ("email", .str "ann@example.com"),
         ("password", .str "exactly-10")] "exactly-10" "production"
        rfl (by decide) (by decide) (by decide) rfl).2.2.2 (by decide)
        "$2b$12$exactly-10" rfl).1,
   ((password_length_boundary toyEnv [] "0a" 1
        [("firstname", .str "Ann"), ("lastname", .str "Lee"), ("email", .str "ann@example.com"),
         ("password", .str emojiPassword)] emojiPassword "production"
        rfl (by decide) (by decide) (by decide) rfl).2.2.2 (by decide)
        ("$2b$12$" ++ emojiPassword) rfl).1⟩

end AuthService
